import Mathlib

/-!
# evdi: device lifecycle (`evdi_drm_drv.c`) and attachment bookkeeping (`evdi_platform_dev.c`)

The C functions are embedded as executable Lean functions.  A function that calls
collaborators (kernel helpers, or evdi code outside these two files) returns the
sequence of calls it issues, in program order, as a `List Call`; results of those
collaborators that the control flow tests are inputs.  Pointers that may be `NULL`
are `Option`s, and a pointer-or-`ERR_PTR` value is an `Except Int _`.
-/

namespace Evdi

/-! ## Data model -/

/-- Identity of a `struct drm_file`. -/
abbrev drm_file := Nat

/-- Identity of a `struct device`. -/
abbrev device := Nat

/-- Identity of a `struct drm_device`. -/
abbrev drm_device := Nat

/-- Address of a `struct evdi_device` handed out by `devm_drm_dev_alloc`. -/
abbrev evdi_ptr := Nat

/-- The part of `struct evdi_painter` that the two files observe. -/
structure evdi_painter where
  is_connected : Bool
  deriving DecidableEq, Repr

/-- The fields of `struct evdi_device` read by the two files. -/
structure evdi_device where
  dev_index : Nat
  cursor : Option Nat
  painter : evdi_painter
  deriving DecidableEq, Repr

/-- Modelled from the spec: `evdi_painter_is_connected` lives in `evdi_painter.c`, which
is not among the sources; section 4.1 describes `is_connected()` as a pure query telling
whether a consumer binding exists. -/
def evdi_painter_is_connected (painter : evdi_painter) : Bool :=
  painter.is_connected

/-- One externally visible action of the driver code: a call to a collaborator (with the
value it returned, when the caller tests it), or a store into the fresh device. -/
inductive Call where
  | devm_drm_dev_alloc
  | store_dev_index (index : Nat)
  | store_cursor_events_enabled (value : Bool)
  | evdi_cursor_init (ret : Int)
  | evdi_modeset_init
  | evdi_fbdev_init (ret : Int)
  | drm_vblank_init (ret : Int)
  | evdi_painter_init (ret : Int)
  | drm_kms_helper_poll_init
  | drm_dev_register (ret : Int)
  | evdi_fbdev_cleanup
  | evdi_cursor_free
  | kfree_evdi
  | drm_dev_unplug
  | drm_kms_helper_poll_fini
  | evdi_fbdev_unplug
  | evdi_painter_cleanup
  | evdi_modeset_cleanup
  | evdi_painter_close (evdi : evdi_device) (file : drm_file)
  | evdi_log_process
  | EVDI_CHECKPT
  | EVDI_INFO
  | EVDI_ERROR
  | EVDI_FATAL
  | kzalloc_data
  | kfree_data
  | platform_set_drvdata
  | sysfs_create_link (target : device) (ret : Int)
  | sysfs_remove_link
  deriving DecidableEq, Repr

/-! ## `evdi_drm_drv.c`: the ioctl table and the driver descriptor -/

/-- The five evdi opcodes (`DRM_EVDI_*` / `DRM_IOCTL_EVDI_*`). -/
inductive Opcode where
  | EVDI_CONNECT
  | EVDI_REQUEST_UPDATE
  | EVDI_GRABPIX
  | EVDI_DDCCI_RESPONSE
  | EVDI_ENABLE_CURSOR_EVENTS
  deriving DecidableEq, Repr

/-- The painter's ioctl entry points. -/
inductive Handler where
  | evdi_painter_connect_ioctl
  | evdi_painter_request_update_ioctl
  | evdi_painter_grabpix_ioctl
  | evdi_painter_ddcci_response_ioctl
  | evdi_painter_enable_cursor_events_ioctl
  deriving DecidableEq, Repr

/-- Kernel permission bit `DRM_RENDER_ALLOW` (`BIT(5)` of `enum drm_ioctl_flags`). -/
def DRM_RENDER_ALLOW : Nat := 32

/-- One `struct drm_ioctl_desc`. -/
structure drm_ioctl_desc where
  cmd : Opcode
  func : Handler
  flags : Nat
  deriving DecidableEq, Repr

/-- The macro `DRM_IOCTL_DEF_DRV(ioctl, _func, _flags)`. -/
def DRM_IOCTL_DEF_DRV (ioctl : Opcode) (func : Handler) (flags : Nat) : drm_ioctl_desc :=
  { cmd := ioctl, func := func, flags := flags }

/-- The table `struct drm_ioctl_desc evdi_painter_ioctls[]`, its entries in the order of
the initializer (the opcode numbers that index it are declared in `evdi_drm.h`). -/
def evdi_painter_ioctls : List drm_ioctl_desc :=
  [ DRM_IOCTL_DEF_DRV .EVDI_CONNECT .evdi_painter_connect_ioctl DRM_RENDER_ALLOW,
    DRM_IOCTL_DEF_DRV .EVDI_REQUEST_UPDATE .evdi_painter_request_update_ioctl DRM_RENDER_ALLOW,
    DRM_IOCTL_DEF_DRV .EVDI_GRABPIX .evdi_painter_grabpix_ioctl DRM_RENDER_ALLOW,
    DRM_IOCTL_DEF_DRV .EVDI_DDCCI_RESPONSE .evdi_painter_ddcci_response_ioctl DRM_RENDER_ALLOW,
    DRM_IOCTL_DEF_DRV .EVDI_ENABLE_CURSOR_EVENTS .evdi_painter_enable_cursor_events_ioctl
      DRM_RENDER_ALLOW ]

/-- The macro `ARRAY_SIZE(arr)`. -/
def ARRAY_SIZE {α : Type} (arr : List α) : Nat := arr.length

/-- The hooks of `struct drm_driver` that point into this file. -/
inductive Hook where
  | evdi_driver_unload
  | evdi_driver_open
  | evdi_driver_postclose
  deriving DecidableEq, Repr

/-- The fields of `struct drm_driver` that concern the hooks and the ioctl table. -/
structure drm_driver where
  unload : Hook
  open_ : Hook
  postclose : Hook
  ioctls : List drm_ioctl_desc
  num_ioctls : Nat
  deriving DecidableEq, Repr

/-- The descriptor `static struct drm_driver driver`. -/
def driver : drm_driver :=
  { unload := .evdi_driver_unload
    open_ := .evdi_driver_open
    postclose := .evdi_driver_postclose
    ioctls := evdi_painter_ioctls
    num_ioctls := ARRAY_SIZE evdi_painter_ioctls }

/-- Whether a descriptor carries a permission bit (`desc->flags & bit`). -/
def drm_ioctl_desc.has_flag (d : drm_ioctl_desc) (bit : Nat) : Bool :=
  d.flags &&& bit != 0

/-! ## `evdi_drm_drv.c`: unload and the close hooks -/

/-- The function `evdi_driver_unload`.  `evdi` is `dev_to_evdi(dev)`; the function dereferences it
without a test, so a `NULL` device is a fault (`none`). -/
def evdi_driver_unload (CONFIG_FB : Bool) (dev_to_evdi : drm_device → Option evdi_device)
    (dev : drm_device) : Option (List Call) :=
  match dev_to_evdi dev with
  | none => none
  | some evdi =>
    some ([Call.EVDI_CHECKPT, Call.drm_kms_helper_poll_fini]
      ++ (if CONFIG_FB then [Call.evdi_fbdev_unplug] else [])
      ++ (if evdi.cursor.isSome then [Call.evdi_cursor_free] else [])
      ++ [Call.evdi_painter_cleanup]
      ++ (if CONFIG_FB then [Call.evdi_fbdev_cleanup] else [])
      ++ [Call.evdi_modeset_cleanup])

/-- The function `evdi_driver_close`. -/
def evdi_driver_close (dev_to_evdi : drm_device → Option evdi_device)
    (drm_dev : drm_device) (file : drm_file) : List Call :=
  match dev_to_evdi drm_dev with
  | some evdi => [Call.EVDI_CHECKPT, Call.evdi_painter_close evdi file]
  | none => [Call.EVDI_CHECKPT]

/-- The function `evdi_driver_preclose`. -/
def evdi_driver_preclose (dev_to_evdi : drm_device → Option evdi_device)
    (drm_dev : drm_device) (file : drm_file) : List Call :=
  evdi_driver_close dev_to_evdi drm_dev file

/-- The function `evdi_driver_postclose`.  It reads `evdi->dev_index` for the log line before it
calls `evdi_driver_close`, so a `NULL` device is a fault (`none`). -/
def evdi_driver_postclose (dev_to_evdi : drm_device → Option evdi_device)
    (drm_dev : drm_device) (file : drm_file) : Option (List Call) :=
  match dev_to_evdi drm_dev with
  | none => none
  | some _ =>
    some ([Call.evdi_log_process, Call.EVDI_INFO] ++ evdi_driver_close dev_to_evdi drm_dev file)

/-- The function `evdi_drm_device_remove`: the calls it issues and its return value. -/
def evdi_drm_device_remove (_dev : drm_device) : Int × List Call :=
  (0, [Call.drm_dev_unplug])

/-! ## `evdi_drm_drv.c`: device construction -/

/-- What the collaborators of `evdi_drm_device_create` return, plus the build option. -/
structure create_env where
  CONFIG_FB : Bool
  devm_drm_dev_alloc : Except { e : Int // e ≠ 0 } evdi_ptr
  primary_index : Nat
  evdi_cursor_init : Int
  evdi_fbdev_init : Int
  drm_vblank_init : Int
  evdi_painter_init : Int
  drm_dev_register : Int

/-- Label `err_free`: log, `kfree(evdi)`, `return ERR_PTR(ret)`. -/
def err_free (ret : Int) (done : List Call) : Except Int evdi_ptr × List Call :=
  (Except.error ret, done ++ [Call.EVDI_ERROR, Call.kfree_evdi])

/-- Label `err_cursor` (the statement is present whether or not the label is):
`evdi_cursor_free(evdi->cursor)`, then falls into `err_free`. -/
def err_cursor (ret : Int) (done : List Call) : Except Int evdi_ptr × List Call :=
  err_free ret (done ++ [Call.evdi_cursor_free])

/-- Label `err_fb`: `evdi_fbdev_cleanup(evdi)` under `CONFIG_FB`, then falls into
`err_cursor`. -/
def err_fb (CONFIG_FB : Bool) (ret : Int) (done : List Call) :
    Except Int evdi_ptr × List Call :=
  err_cursor ret (done ++ (if CONFIG_FB then [Call.evdi_fbdev_cleanup] else []))

/-- The function `evdi_drm_device_create`: the returned pointer (`Except.error ret` is `ERR_PTR(ret)`)
and the calls issued. -/
def evdi_drm_device_create (env : create_env) : Except Int evdi_ptr × List Call :=
  match env.devm_drm_dev_alloc with
  | Except.error e => (Except.error e.val, [Call.devm_drm_dev_alloc])
  | Except.ok evdi =>
    let t0 := [Call.devm_drm_dev_alloc, Call.store_dev_index env.primary_index,
      Call.store_cursor_events_enabled false, Call.evdi_cursor_init env.evdi_cursor_init]
    if env.evdi_cursor_init ≠ 0 then err_free env.evdi_cursor_init t0 else
    let t1 := t0 ++ [Call.EVDI_CHECKPT, Call.evdi_modeset_init]
    let t2 := t1 ++ (if env.CONFIG_FB then [Call.evdi_fbdev_init env.evdi_fbdev_init] else [])
    if env.CONFIG_FB && env.evdi_fbdev_init ≠ 0 then err_cursor env.evdi_fbdev_init t2 else
    let t3 := t2 ++ [Call.drm_vblank_init env.drm_vblank_init]
    if env.drm_vblank_init ≠ 0 then err_fb env.CONFIG_FB env.drm_vblank_init t3 else
    let t4 := t3 ++ [Call.evdi_painter_init env.evdi_painter_init]
    if env.evdi_painter_init ≠ 0 then err_fb env.CONFIG_FB env.evdi_painter_init t4 else
    let t5 := t4 ++ [Call.drm_kms_helper_poll_init, Call.drm_dev_register env.drm_dev_register]
    if env.drm_dev_register ≠ 0 then err_free env.drm_dev_register t5 else
    (Except.ok evdi, t5)

/-! ## `evdi_platform_dev.c` -/

/-- The record `struct evdi_platform_device_data`. -/
structure evdi_platform_device_data where
  drm_dev : drm_device
  parent : Option device
  symlinked : Bool
  deriving DecidableEq, Repr

/-- A `struct platform_device` as the attachment code sees it: its driver data
(`platform_get_drvdata(pdev)`) and the sysfs link named "device" that
`sysfs_create_link` has put under `pdev->dev.kobj` (`none` when there is none). -/
structure platform_device where
  drvdata : evdi_platform_device_data
  device_link : Option device
  deriving DecidableEq, Repr

/-- Kernel error number `ENOMEM`. -/
def ENOMEM : Int := 12

/-- The kernel helper `PTR_ERR_OR_ZERO`. -/
def PTR_ERR_OR_ZERO (ptr : Except Int evdi_ptr) : Int :=
  match ptr with
  | Except.error e => e
  | Except.ok _ => 0

/-- The function `evdi_platform_device_probe`: its return value, the driver data it
installs with `platform_set_drvdata` (if it does), and the calls issued.  `kzalloc` tells
whether the allocation of the data succeeded and `ddev evdi` is `&evdi->ddev`. -/
def evdi_platform_device_probe (kzalloc : Bool) (ddev : evdi_ptr → drm_device)
    (env : create_env) : Int × Option evdi_platform_device_data × List Call :=
  if !kzalloc then (-ENOMEM, none, [Call.EVDI_CHECKPT, Call.kzalloc_data]) else
  let created := evdi_drm_device_create env
  let evdi_dev := created.1
  let done := [Call.EVDI_CHECKPT, Call.kzalloc_data] ++ created.2
  match evdi_dev with
  | Except.error _ =>
    -- `IS_ERR_OR_NULL(evdi_dev)` holds (`NULL` is `ERR_PTR(0)`): `goto err_free`
    (PTR_ERR_OR_ZERO evdi_dev, none, done ++ [Call.kfree_data])
  | Except.ok evdi =>
    (PTR_ERR_OR_ZERO evdi_dev,
      some { drm_dev := ddev evdi, parent := none, symlinked := false },
      done ++ [Call.platform_set_drvdata])

/-- The function `evdi_platform_device_is_free`, in state-passing form: its result and
the device afterwards. -/
def evdi_platform_device_is_free (dev_to_evdi : drm_device → Option evdi_device)
    (pdev : platform_device) : Bool × platform_device :=
  let data := pdev.drvdata
  match dev_to_evdi data.drm_dev with
  | some evdi =>
    if !evdi_painter_is_connected evdi.painter && !data.symlinked then (true, pdev)
    else (false, pdev)
  | none => (false, pdev)

/-- The function `evdi_platform_device_link`: the device afterwards and the calls
issued.  `sysfs_create_link` is the value the kernel call returns if it is reached; a
return of 0 means the link now exists. -/
def evdi_platform_device_link (dev_to_evdi : drm_device → Option evdi_device)
    (sysfs_create_link : Int) (pdev : Option platform_device) (parent : Option device) :
    Option platform_device × List Call :=
  match parent, pdev with
  | some parent, some pdev =>
    let data := pdev.drvdata
    let free := evdi_platform_device_is_free dev_to_evdi pdev
    if !free.1 then (some free.2, [Call.EVDI_FATAL]) else
    let ret := sysfs_create_link
    if ret ≠ 0 then (some free.2, [Call.sysfs_create_link parent ret, Call.EVDI_FATAL])
    else
      (some { drvdata := { data with symlinked := true, parent := some parent },
              device_link := some parent },
        [Call.sysfs_create_link parent ret])
  | _, _ => (pdev, [])

/-- The function `evdi_platform_device_unlink_if_linked_with`: the device afterwards and
the calls issued. -/
def evdi_platform_device_unlink_if_linked_with (pdev : platform_device)
    (parent : Option device) : platform_device × List Call :=
  let data := pdev.drvdata
  match parent with
  | some p =>
    if data.parent = some p then
      ({ drvdata := { data with symlinked := false, parent := none }, device_link := none },
        [Call.sysfs_remove_link, Call.EVDI_INFO])
    else (pdev, [])
  | none => (pdev, [])

/-! ## Vocabulary of the properties -/

/-- The resources a device owns besides its own memory. -/
inductive Resource where
  | cursor
  | fbdev
  | painter
  deriving DecidableEq, Repr

/-- The resource a call acquires, if it does: a constructor that returned 0. -/
def Call.acquires : Call → Option Resource
  | Call.evdi_cursor_init ret => if ret = 0 then some Resource.cursor else none
  | Call.evdi_fbdev_init ret => if ret = 0 then some Resource.fbdev else none
  | Call.evdi_painter_init ret => if ret = 0 then some Resource.painter else none
  | _ => none

/-- The resource a call releases, if it does. -/
def Call.releases : Call → Option Resource
  | Call.evdi_cursor_free => some Resource.cursor
  | Call.evdi_fbdev_cleanup => some Resource.fbdev
  | Call.evdi_painter_cleanup => some Resource.painter
  | _ => none

/-- The resources acquired along a sequence of calls, in order of acquisition. -/
def acquired (calls : List Call) : List Resource := calls.filterMap Call.acquires

/-- The resources released along a sequence of calls, in order of release. -/
def released (calls : List Call) : List Resource := calls.filterMap Call.releases

/-- Resource accounting, one call: an acquisition adds its resource to the live ones, a
release removes it. -/
def account (live : List Resource) (c : Call) : List Resource :=
  match c.acquires with
  | some r => r :: live
  | none =>
    match c.releases with
    | some r => live.erase r
    | none => live

/-- Resource accounting: whether `r` is allocated after the calls have run. -/
def allocated (r : Resource) (calls : List Call) : Bool :=
  (calls.foldl account []).contains r

/-- Whether a consumer is bound to the painter of the device behind a platform device;
with no device there is no painter and so no binding. -/
def consumer_bound (dev_to_evdi : drm_device → Option evdi_device)
    (pdev : platform_device) : Bool :=
  match dev_to_evdi pdev.drvdata.drm_dev with
  | some evdi => evdi_painter_is_connected evdi.painter
  | none => false

/-- Whether a call is an invocation of `evdi_painter_close`. -/
def Call.is_painter_close : Call → Bool
  | Call.evdi_painter_close _ _ => true
  | _ => false

/-- Whether a call is an invocation of `sysfs_create_link`. -/
def Call.is_sysfs_create_link : Call → Bool
  | Call.sysfs_create_link _ _ => true
  | _ => false

/-- Whether the construction step `evdi_painter_init` was run. -/
def Call.is_painter_init : Call → Bool
  | Call.evdi_painter_init _ => true
  | _ => false

/-- The return codes of the construction steps that are tested with `if (ret)`, in
program order; the legacy framebuffer step exists only under `CONFIG_FB`. -/
def create_env.step_rets (env : create_env) : List Int :=
  [env.evdi_cursor_init] ++ (if env.CONFIG_FB then [env.evdi_fbdev_init] else [])
    ++ [env.drm_vblank_init, env.evdi_painter_init, env.drm_dev_register]

/-- Position of the first occurrence of a call in a sequence (its length if absent). -/
def call_pos (c : Call) (calls : List Call) : Nat := calls.indexOf c

/-- The calls of device removal: `evdi_drm_device_remove` followed by
`evdi_driver_unload` (`none` if unload faults). -/
def removal_calls (CONFIG_FB : Bool) (dev_to_evdi : drm_device → Option evdi_device)
    (dev : drm_device) : Option (List Call) :=
  (evdi_driver_unload CONFIG_FB dev_to_evdi dev).map
    (fun calls => (evdi_drm_device_remove dev).2 ++ calls)

/-- One attachment request: a link (with what the painter and sysfs answer at that
moment) or an unlink. -/
inductive attach_op where
  | link (dev_to_evdi : drm_device → Option evdi_device) (sysfs_create_link : Int)
      (parent : Option device)
  | unlink (parent : Option device)

/-- Runs one attachment request on a device. -/
def attach_op.run (pdev : platform_device) : attach_op → platform_device
  | attach_op.link dev_to_evdi ret parent =>
    ((evdi_platform_device_link dev_to_evdi ret (some pdev) parent).1).getD pdev
  | attach_op.unlink parent => (evdi_platform_device_unlink_if_linked_with pdev parent).1

/-- Runs a sequence of attachment requests, first to last. -/
def run_ops (pdev : platform_device) (ops : List attach_op) : platform_device :=
  ops.foldl attach_op.run pdev

/-- The attachment invariant: `symlinked` holds exactly when a parent is recorded, and
the recorded parent is the target of the sysfs link that exists. -/
def attach_inv (pdev : platform_device) : Prop :=
  (pdev.drvdata.symlinked = true ↔ pdev.drvdata.parent ≠ none) ∧
    pdev.device_link = pdev.drvdata.parent

/-! ## Sample inputs -/

/-- A construction in which every step succeeds except the last, `drm_dev_register`,
which returns `-ENOMEM`. -/
def env_register_fails : create_env :=
  { CONFIG_FB := true
    devm_drm_dev_alloc := Except.ok 1
    primary_index := 0
    evdi_cursor_init := 0
    evdi_fbdev_init := 0
    drm_vblank_init := 0
    evdi_painter_init := 0
    drm_dev_register := -12 }

/-- A device with a cursor and no consumer, found behind every `drm_device`. -/
def dev_with_cursor : drm_device → Option evdi_device :=
  fun _ => some { dev_index := 0, cursor := some 1, painter := { is_connected := false } }

/-- A construction that fails at `drm_vblank_init`, after the cursor and the legacy
framebuffer were set up. -/
def env_vblank_fails : create_env :=
  { CONFIG_FB := true
    devm_drm_dev_alloc := Except.ok 1
    primary_index := 0
    evdi_cursor_init := 0
    evdi_fbdev_init := 0
    drm_vblank_init := -12
    evdi_painter_init := 0
    drm_dev_register := 0 }

/-- A device that can be found behind every `drm_device`, with no consumer. -/
def dev_idle : drm_device → Option evdi_device :=
  fun _ => some { dev_index := 0, cursor := none, painter := { is_connected := false } }

/-- A device that can be found behind every `drm_device`, with a consumer connected. -/
def dev_busy : drm_device → Option evdi_device :=
  fun _ => some { dev_index := 0, cursor := none, painter := { is_connected := true } }

/-- No evdi device behind any `drm_device` (`dev_to_evdi` yields `NULL`). -/
def dev_absent : drm_device → Option evdi_device :=
  fun _ => none

/-- A platform device as `evdi_platform_device_probe` leaves it: not attached. -/
def pdev_fresh : platform_device :=
  { drvdata := { drm_dev := 1, parent := none, symlinked := false }, device_link := none }

/-- A platform device attached to parent 10. -/
def pdev_linked : platform_device :=
  { drvdata := { drm_dev := 1, parent := some 10, symlinked := true },
    device_link := some 10 }

/-- A construction in which every step succeeds. -/
def env_all_ok : create_env :=
  { CONFIG_FB := true
    devm_drm_dev_alloc := Except.ok 1
    primary_index := 0
    evdi_cursor_init := 0
    evdi_fbdev_init := 0
    drm_vblank_init := 0
    evdi_painter_init := 0
    drm_dev_register := 0 }

/-- Six attachment requests: link to 10, unlink from 10, a link to 20 that sysfs refuses,
a link to 20 that succeeds, a link to 10 while a consumer is connected, and an unlink
from 10.  The device ends attached to 20. -/
def ops_sample : List attach_op :=
  [attach_op.link dev_idle 0 (some 10), attach_op.unlink (some 10),
   attach_op.link dev_idle (-17) (some 20), attach_op.link dev_idle 0 (some 20),
   attach_op.link dev_busy 0 (some 10), attach_op.unlink (some 10)]

/-! ## Theorems: device construction -/

/-- The pointer returned by `evdi_drm_device_create`, without the calls. -/
theorem create_ret_eq (env : create_env) :
    (evdi_drm_device_create env).1 =
      match env.devm_drm_dev_alloc with
      | Except.error e => Except.error e.val
      | Except.ok evdi =>
        if env.evdi_cursor_init ≠ 0 then Except.error env.evdi_cursor_init
        else if env.CONFIG_FB && env.evdi_fbdev_init ≠ 0 then Except.error env.evdi_fbdev_init
        else if env.drm_vblank_init ≠ 0 then Except.error env.drm_vblank_init
        else if env.evdi_painter_init ≠ 0 then Except.error env.evdi_painter_init
        else if env.drm_dev_register ≠ 0 then Except.error env.drm_dev_register
        else Except.ok evdi := by
  unfold evdi_drm_device_create
  cases env.devm_drm_dev_alloc with
  | error e => rfl
  | ok evdi =>
    simp only [err_free, err_cursor, err_fb]
    split_ifs <;> rfl

/-- Rollback on the paths that have one: when construction fails at any step before
`drm_dev_register`, the resources acquired so far are released in exactly the reverse of
the order of acquisition. -/
theorem create_rollback_before_register (env : create_env)
    (hreg : ¬ (∀ ret ∈ (env.step_rets).dropLast, ret = 0)) :
    released (evdi_drm_device_create env).2 =
      (acquired (evdi_drm_device_create env).2).reverse := by
  obtain ⟨fb, alloc, idx, c, f, v, p, r⟩ := env
  simp only [create_env.step_rets] at hreg
  cases alloc with
  | error e => simp [evdi_drm_device_create, released, acquired, Call.acquires, Call.releases]
  | ok evdi =>
    by_cases hc : c = 0
    · by_cases hf : f = 0 <;> by_cases hv : v = 0 <;> by_cases hp : p = 0 <;> cases fb <;>
        simp_all [evdi_drm_device_create, err_free, err_cursor, err_fb, released, acquired,
          Call.acquires, Call.releases, List.filterMap_append, List.filterMap_cons]
    · simp [evdi_drm_device_create, err_free, released, acquired, Call.acquires,
        Call.releases, List.filterMap_append, List.filterMap_cons, hc]

/-- Claim C1, evaluated where the code departs from it: when `drm_dev_register` is the
step that fails, `evdi_drm_device_create` returns the error while the cursor, the legacy
framebuffer and the painter acquired before are all still allocated: nothing is
released, so the releases are not the reverse of the acquisitions. -/
theorem create_register_failure_releases_nothing :
    (evdi_drm_device_create env_register_fails).1 = Except.error (-12) ∧
    acquired (evdi_drm_device_create env_register_fails).2 =
      [Resource.cursor, Resource.fbdev, Resource.painter] ∧
    released (evdi_drm_device_create env_register_fails).2 = [] ∧
    released (evdi_drm_device_create env_register_fails).2 ≠
      (acquired (evdi_drm_device_create env_register_fails).2).reverse ∧
    allocated Resource.cursor (evdi_drm_device_create env_register_fails).2 = true ∧
    allocated Resource.fbdev (evdi_drm_device_create env_register_fails).2 = true ∧
    allocated Resource.painter (evdi_drm_device_create env_register_fails).2 = true := by
  refine ⟨rfl, by decide, by decide, by decide, by decide, by decide, by decide⟩

/-- Claim C2: `evdi_drm_device_create` returns a device handle exactly when the
allocation and every tested construction step succeeded, and the handle is the allocated
device; a failed allocation is returned as its own error, a failed step makes the result
`ERR_PTR` of that step's return code, and an error result never has code 0. -/
theorem create_returns_handle_iff_all_steps_succeed (env : create_env) :
    ((∃ evdi, (evdi_drm_device_create env).1 = Except.ok evdi) ↔
      ((∃ evdi, env.devm_drm_dev_alloc = Except.ok evdi) ∧ ∀ ret ∈ env.step_rets, ret = 0)) ∧
    (∀ evdi, (evdi_drm_device_create env).1 = Except.ok evdi →
      env.devm_drm_dev_alloc = Except.ok evdi) ∧
    (∀ e, env.devm_drm_dev_alloc = Except.error e →
      (evdi_drm_device_create env).1 = Except.error e.val) ∧
    (∀ evdi ret, env.devm_drm_dev_alloc = Except.ok evdi →
      env.step_rets.find? (fun r => decide (r ≠ 0)) = some ret →
      (evdi_drm_device_create env).1 = Except.error ret) ∧
    (∀ code, (evdi_drm_device_create env).1 = Except.error code → code ≠ 0) := by
  rw [create_ret_eq]
  obtain ⟨fb, alloc, idx, c, f, v, p, r⟩ := env
  cases alloc with
  | error e =>
    have := e.property
    simp [this]
  | ok evdi =>
    simp only [create_env.step_rets]
    by_cases hc : c = 0
    · subst hc
      cases fb
      · by_cases hv : v = 0
        · subst hv
          by_cases hp : p = 0
          · subst hp
            by_cases hr : r = 0
            · subst hr; simp
            · simp [hr]
          · simp [hp]
        · simp [hv]
      · by_cases hf : f = 0
        · subst hf
          by_cases hv : v = 0
          · subst hv
            by_cases hp : p = 0
            · subst hp
              by_cases hr : r = 0
              · subst hr; simp
              · simp [hr]
            · simp [hp]
          · simp [hv]
        · simp [hf]
    · simp [hc]

/-- Claim C8: when construction fails at a step that runs after the cursor was
constructed and before the painter is (`evdi_fbdev_init` under `CONFIG_FB`, or
`drm_vblank_init`), `evdi_drm_device_create` returns that step's error, the cursor
acquired earlier has been freed, `evdi_painter_init` was never run, and resource
accounting over the calls finds neither the cursor nor the painter allocated. -/
theorem create_modeset_stage_failure_leaves_no_cursor_no_painter (env : create_env)
    (evdi : evdi_ptr) (halloc : env.devm_drm_dev_alloc = Except.ok evdi)
    (hcursor : env.evdi_cursor_init = 0)
    (hfail : (env.CONFIG_FB = true ∧ env.evdi_fbdev_init ≠ 0) ∨ env.drm_vblank_init ≠ 0) :
    (∃ code, code ≠ 0 ∧ (evdi_drm_device_create env).1 = Except.error code) ∧
    Call.evdi_cursor_init 0 ∈ (evdi_drm_device_create env).2 ∧
    Call.evdi_cursor_free ∈ (evdi_drm_device_create env).2 ∧
    (evdi_drm_device_create env).2.filter Call.is_painter_init = [] ∧
    allocated Resource.cursor (evdi_drm_device_create env).2 = false ∧
    allocated Resource.painter (evdi_drm_device_create env).2 = false := by
  obtain ⟨fb, alloc, idx, c, f, v, p, r⟩ := env
  simp only at halloc hcursor hfail
  subst halloc hcursor
  by_cases hf : f = 0
  · subst hf
    have hv : v ≠ 0 := by simpa using hfail
    cases fb <;>
      simp [evdi_drm_device_create, err_free, err_cursor, err_fb, hv, allocated, account,
        Call.acquires, Call.releases, Call.is_painter_init, List.filter]
  · cases fb
    · have hv : v ≠ 0 := by simpa using hfail
      simp [evdi_drm_device_create, err_free, err_cursor, err_fb, hv, allocated, account,
        Call.acquires, Call.releases, Call.is_painter_init, List.filter]
    · simp [evdi_drm_device_create, err_free, err_cursor, err_fb, hf, allocated, account,
        Call.acquires, Call.releases, Call.is_painter_init, List.filter]

/-- Witness for `create_modeset_stage_failure_leaves_no_cursor_no_painter`: the
construction that fails at `drm_vblank_init`. -/
theorem create_modeset_stage_failure_witness :
    (∃ code, code ≠ 0 ∧ (evdi_drm_device_create env_vblank_fails).1 = Except.error code) ∧
    Call.evdi_cursor_init 0 ∈ (evdi_drm_device_create env_vblank_fails).2 ∧
    Call.evdi_cursor_free ∈ (evdi_drm_device_create env_vblank_fails).2 ∧
    (evdi_drm_device_create env_vblank_fails).2.filter Call.is_painter_init = [] ∧
    allocated Resource.cursor (evdi_drm_device_create env_vblank_fails).2 = false ∧
    allocated Resource.painter (evdi_drm_device_create env_vblank_fails).2 = false :=
  create_modeset_stage_failure_leaves_no_cursor_no_painter env_vblank_fails 1 rfl rfl
    (Or.inr (by decide))

/-! ## Theorems: close hooks, removal, ioctl table -/

/-- Claim C6: for every device behind the `drm_device` and every closing file, both
`evdi_driver_postclose` and `evdi_driver_preclose` complete and issue exactly one call of
`evdi_painter_close`, with that device and that file, whatever the painter's connection
state is. -/
theorem close_hooks_call_painter_close_once (dev_to_evdi : drm_device → Option evdi_device)
    (drm_dev : drm_device) (file : drm_file) (evdi : evdi_device)
    (hdev : dev_to_evdi drm_dev = some evdi) :
    (∃ calls, evdi_driver_postclose dev_to_evdi drm_dev file = some calls ∧
      calls.filter Call.is_painter_close = [Call.evdi_painter_close evdi file]) ∧
    (evdi_driver_preclose dev_to_evdi drm_dev file).filter Call.is_painter_close =
      [Call.evdi_painter_close evdi file] := by
  simp [evdi_driver_postclose, evdi_driver_preclose, evdi_driver_close, hdev,
    Call.is_painter_close, List.filter]

/-- Witness for `close_hooks_call_painter_close_once`: file 7 closes a device whose
painter has a consumer connected. -/
theorem close_hooks_witness :
    (∃ calls,
      evdi_driver_postclose
        (fun _ => some { dev_index := 0, cursor := none, painter := { is_connected := true } })
        3 7 = some calls ∧
      calls.filter Call.is_painter_close =
        [Call.evdi_painter_close
          { dev_index := 0, cursor := none, painter := { is_connected := true } } 7]) ∧
    (evdi_driver_preclose
        (fun _ => some { dev_index := 0, cursor := none, painter := { is_connected := true } })
        3 7).filter Call.is_painter_close =
      [Call.evdi_painter_close
        { dev_index := 0, cursor := none, painter := { is_connected := true } } 7] :=
  close_hooks_call_painter_close_once _ 3 7 _ rfl

/-- Claim C7, as stated, fails: with `CONFIG_FB` and a cursor present, removal issues
`evdi_fbdev_cleanup`, the call that frees the legacy framebuffer resources, after
`evdi_cursor_free` and after `evdi_painter_cleanup`, not before them. -/
theorem removal_frees_fbdev_after_cursor_and_painter :
    removal_calls true dev_with_cursor 0 =
      some [Call.drm_dev_unplug, Call.EVDI_CHECKPT, Call.drm_kms_helper_poll_fini,
        Call.evdi_fbdev_unplug, Call.evdi_cursor_free, Call.evdi_painter_cleanup,
        Call.evdi_fbdev_cleanup, Call.evdi_modeset_cleanup] ∧
    ¬ (∀ calls, removal_calls true dev_with_cursor 0 = some calls →
        ∀ c, c.releases = some Resource.fbdev →
          call_pos c calls < call_pos Call.evdi_cursor_free calls) := by
  refine ⟨rfl, ?_⟩
  intro h
  have := h _ rfl Call.evdi_fbdev_cleanup rfl
  revert this
  decide

/-- Claim C7, amended: removal completes; `drm_dev_unplug` is its first call; under
`CONFIG_FB` the legacy framebuffer is unplugged (`evdi_fbdev_unplug`) before the cursor is
freed and before the painter is torn down; `evdi_cursor_free` is issued exactly when the
device has a cursor and then precedes `evdi_painter_cleanup`; `evdi_painter_cleanup`
precedes `evdi_fbdev_cleanup` (issued exactly under `CONFIG_FB`), which precedes
`evdi_modeset_cleanup`, the last call; no call is issued twice. -/
theorem removal_order (CONFIG_FB : Bool) (dev_to_evdi : drm_device → Option evdi_device)
    (dev : drm_device) (evdi : evdi_device) (hdev : dev_to_evdi dev = some evdi) :
    ∃ calls, removal_calls CONFIG_FB dev_to_evdi dev = some calls ∧
      calls.head? = some Call.drm_dev_unplug ∧
      calls.getLast? = some Call.evdi_modeset_cleanup ∧
      calls.Nodup ∧
      (Call.evdi_fbdev_unplug ∈ calls ↔ CONFIG_FB = true) ∧
      (Call.evdi_fbdev_cleanup ∈ calls ↔ CONFIG_FB = true) ∧
      (Call.evdi_cursor_free ∈ calls ↔ evdi.cursor.isSome = true) ∧
      Call.evdi_painter_cleanup ∈ calls ∧
      (CONFIG_FB = true → evdi.cursor.isSome = true →
        call_pos Call.evdi_fbdev_unplug calls < call_pos Call.evdi_cursor_free calls) ∧
      (CONFIG_FB = true →
        call_pos Call.evdi_fbdev_unplug calls < call_pos Call.evdi_painter_cleanup calls) ∧
      (evdi.cursor.isSome = true →
        call_pos Call.evdi_cursor_free calls < call_pos Call.evdi_painter_cleanup calls) ∧
      (CONFIG_FB = true →
        call_pos Call.evdi_painter_cleanup calls < call_pos Call.evdi_fbdev_cleanup calls ∧
        call_pos Call.evdi_fbdev_cleanup calls < call_pos Call.evdi_modeset_cleanup calls) ∧
      call_pos Call.evdi_painter_cleanup calls < call_pos Call.evdi_modeset_cleanup calls := by
  simp only [removal_calls, evdi_driver_unload, hdev, evdi_drm_device_remove, Option.map_some',
    Option.some.injEq, exists_eq_left']
  cases CONFIG_FB <;> cases h : evdi.cursor.isSome <;> simp [call_pos]

/-- Witness for `removal_order`: a device with a cursor, built with `CONFIG_FB`. -/
theorem removal_order_witness :
    ∃ calls, removal_calls true dev_with_cursor 0 = some calls ∧
      calls.head? = some Call.drm_dev_unplug ∧
      calls.getLast? = some Call.evdi_modeset_cleanup ∧
      calls.Nodup ∧
      (Call.evdi_fbdev_unplug ∈ calls ↔ true = true) ∧
      (Call.evdi_fbdev_cleanup ∈ calls ↔ true = true) ∧
      (Call.evdi_cursor_free ∈ calls ↔ (some 1 : Option Nat).isSome = true) ∧
      Call.evdi_painter_cleanup ∈ calls ∧
      (true = true → (some 1 : Option Nat).isSome = true →
        call_pos Call.evdi_fbdev_unplug calls < call_pos Call.evdi_cursor_free calls) ∧
      (true = true →
        call_pos Call.evdi_fbdev_unplug calls < call_pos Call.evdi_painter_cleanup calls) ∧
      ((some 1 : Option Nat).isSome = true →
        call_pos Call.evdi_cursor_free calls < call_pos Call.evdi_painter_cleanup calls) ∧
      (true = true →
        call_pos Call.evdi_painter_cleanup calls < call_pos Call.evdi_fbdev_cleanup calls ∧
        call_pos Call.evdi_fbdev_cleanup calls < call_pos Call.evdi_modeset_cleanup calls) ∧
      call_pos Call.evdi_painter_cleanup calls < call_pos Call.evdi_modeset_cleanup calls :=
  removal_order true dev_with_cursor 0
    { dev_index := 0, cursor := some 1, painter := { is_connected := false } } rfl

/-- Claim C9: the table `evdi_painter_ioctls` consists of exactly the five opcodes
CONNECT, REQUEST_UPDATE, GRABPIX, DDCCI_RESPONSE and ENABLE_CURSOR_EVENTS, each bound to
its painter handler; every entry carries exactly `DRM_RENDER_ALLOW`; the driver
descriptor points at this table and its `num_ioctls` is the table's length, so every
slot the dispatcher can reach holds an entry that requires render access. -/
theorem ioctl_table_five_opcodes_render_allow :
    evdi_painter_ioctls.map (fun d => (d.cmd, d.func)) =
      [(Opcode.EVDI_CONNECT, Handler.evdi_painter_connect_ioctl),
       (Opcode.EVDI_REQUEST_UPDATE, Handler.evdi_painter_request_update_ioctl),
       (Opcode.EVDI_GRABPIX, Handler.evdi_painter_grabpix_ioctl),
       (Opcode.EVDI_DDCCI_RESPONSE, Handler.evdi_painter_ddcci_response_ioctl),
       (Opcode.EVDI_ENABLE_CURSOR_EVENTS, Handler.evdi_painter_enable_cursor_events_ioctl)] ∧
    (∀ d ∈ evdi_painter_ioctls,
      d.flags = DRM_RENDER_ALLOW ∧ d.has_flag DRM_RENDER_ALLOW = true) ∧
    driver.ioctls = evdi_painter_ioctls ∧
    driver.num_ioctls = evdi_painter_ioctls.length ∧
    driver.num_ioctls = 5 ∧
    (∀ op : Opcode, ∃ d ∈ driver.ioctls, d.cmd = op) ∧
    (∀ i, i < driver.num_ioctls →
      ∃ d, driver.ioctls.get? i = some d ∧ d.has_flag DRM_RENDER_ALLOW = true) := by
  refine ⟨rfl, by decide, rfl, rfl, rfl, ?_, ?_⟩
  · intro op
    cases op <;> decide
  · intro i hi
    have h5 : i < 5 := hi
    interval_cases i <;> exact ⟨_, rfl, by decide⟩

/-! ## Theorems: attachment -/

/-- The state is never changed by `evdi_platform_device_is_free`. -/
theorem is_free_keeps_state (dev_to_evdi : drm_device → Option evdi_device)
    (pdev : platform_device) : (evdi_platform_device_is_free dev_to_evdi pdev).2 = pdev := by
  unfold evdi_platform_device_is_free
  dsimp only
  generalize dev_to_evdi pdev.drvdata.drm_dev = found
  cases found with
  | none => rfl
  | some evdi => dsimp only; split_ifs <;> rfl

/-- Claim C4, as stated, fails: when no evdi device is found behind the `drm_device`,
`evdi_platform_device_is_free` returns false although no consumer is bound to a painter
and `symlinked` is false. -/
theorem is_free_false_without_device :
    (evdi_platform_device_is_free dev_absent pdev_fresh).1 = false ∧
    consumer_bound dev_absent pdev_fresh = false ∧
    pdev_fresh.drvdata.symlinked = false ∧
    ¬ ((evdi_platform_device_is_free dev_absent pdev_fresh).1 = true ↔
        (consumer_bound dev_absent pdev_fresh = false ∧
          pdev_fresh.drvdata.symlinked = false)) := by
  decide

/-- Claim C4, amended: for every platform device state, `evdi_platform_device_is_free`
returns true exactly when the evdi device is found behind the `drm_device`, no consumer is
connected to its painter and `symlinked` is false; it leaves the platform device as it
was. -/
theorem is_free_iff_device_and_not_connected_and_not_symlinked
    (dev_to_evdi : drm_device → Option evdi_device) (pdev : platform_device) :
    ((evdi_platform_device_is_free dev_to_evdi pdev).1 = true ↔
      ∃ evdi, dev_to_evdi pdev.drvdata.drm_dev = some evdi ∧
        evdi_painter_is_connected evdi.painter = false ∧
        pdev.drvdata.symlinked = false) ∧
    (evdi_platform_device_is_free dev_to_evdi pdev).2 = pdev := by
  refine ⟨?_, is_free_keeps_state dev_to_evdi pdev⟩
  unfold evdi_platform_device_is_free
  dsimp only
  generalize dev_to_evdi pdev.drvdata.drm_dev = found
  cases found with
  | none => simp
  | some evdi =>
    dsimp only
    split_ifs with h <;> simp_all

/-- Claim C3: whenever `evdi_platform_device_is_free` is false, be it for a connected
consumer or for an existing attachment, `evdi_platform_device_link` does not call
`sysfs_create_link` and leaves the device, with its `symlinked` flag, its recorded parent
and its sysfs link, unchanged.  In particular, after a link to parent `A` that attached
the device, a link to another parent `B` leaves it attached to `A`. -/
theorem link_refused_when_not_free :
    (∀ (dev_to_evdi : drm_device → Option evdi_device) (ret : Int) (pdev : platform_device)
        (parent : Option device),
      (evdi_platform_device_is_free dev_to_evdi pdev).1 = false →
      (evdi_platform_device_link dev_to_evdi ret (some pdev) parent).1 = some pdev ∧
      (evdi_platform_device_link dev_to_evdi ret (some pdev) parent).2.filter
        Call.is_sysfs_create_link = []) ∧
    (∀ (d₁ d₂ : drm_device → Option evdi_device) (ret₂ : Int) (pdev : platform_device)
        (A B : device),
      A ≠ B →
      (evdi_platform_device_is_free d₁ pdev).1 = true →
      ∃ linked, (evdi_platform_device_link d₁ 0 (some pdev) (some A)).1 = some linked ∧
        linked.drvdata.symlinked = true ∧ linked.drvdata.parent = some A ∧
        linked.device_link = some A ∧
        (evdi_platform_device_link d₂ ret₂ (some linked) (some B)).1 = some linked ∧
        (evdi_platform_device_link d₂ ret₂ (some linked) (some B)).2.filter
          Call.is_sysfs_create_link = []) ∧
    (∀ (dev_to_evdi : drm_device → Option evdi_device) (pdev : platform_device),
      ((∃ evdi, dev_to_evdi pdev.drvdata.drm_dev = some evdi ∧
          evdi_painter_is_connected evdi.painter = true) ∨
        pdev.drvdata.symlinked = true) →
      (evdi_platform_device_is_free dev_to_evdi pdev).1 = false) := by
  have key : ∀ (dev_to_evdi : drm_device → Option evdi_device) (ret : Int)
      (pdev : platform_device) (parent : Option device),
      (evdi_platform_device_is_free dev_to_evdi pdev).1 = false →
      (evdi_platform_device_link dev_to_evdi ret (some pdev) parent).1 = some pdev ∧
      (evdi_platform_device_link dev_to_evdi ret (some pdev) parent).2.filter
        Call.is_sysfs_create_link = [] := by
    intro d ret pdev parent hfree
    cases parent with
    | none => simp [evdi_platform_device_link]
    | some p =>
      simp [evdi_platform_device_link, hfree, is_free_keeps_state, Call.is_sysfs_create_link,
        List.filter]
  refine ⟨key, ?_, ?_⟩
  · intro d₁ d₂ ret₂ pdev A B _ hfree
    refine ⟨{ drvdata := { pdev.drvdata with symlinked := true, parent := some A },
              device_link := some A }, ?_, rfl, rfl, rfl, ?_⟩
    · simp [evdi_platform_device_link, hfree]
    · apply key
      unfold evdi_platform_device_is_free
      dsimp only
      generalize d₂ pdev.drvdata.drm_dev = found
      cases found with
      | none => rfl
      | some evdi => simp
  · intro d pdev h
    unfold evdi_platform_device_is_free
    dsimp only
    rcases h with ⟨evdi, hdev, hconn⟩ | hsym
    · simp [hdev, hconn]
    · generalize d pdev.drvdata.drm_dev = found
      cases found with
      | none => rfl
      | some evdi => simp [hsym]

/-- Witness for `link_refused_when_not_free`: a device attached to parent 10 is asked
to link to parent 20, and a fresh device is linked to 10 and then to 20. -/
theorem link_refused_witness :
    ((evdi_platform_device_link dev_idle 0 (some pdev_linked) (some 20)).1 = some pdev_linked ∧
      (evdi_platform_device_link dev_idle 0 (some pdev_linked) (some 20)).2.filter
        Call.is_sysfs_create_link = []) ∧
    (∃ linked, (evdi_platform_device_link dev_idle 0 (some pdev_fresh) (some 10)).1 =
        some linked ∧
      linked.drvdata.symlinked = true ∧ linked.drvdata.parent = some 10 ∧
      linked.device_link = some 10 ∧
      (evdi_platform_device_link dev_idle 0 (some linked) (some 20)).1 = some linked ∧
      (evdi_platform_device_link dev_idle 0 (some linked) (some 20)).2.filter
        Call.is_sysfs_create_link = []) ∧
    (evdi_platform_device_is_free dev_busy pdev_fresh).1 = false ∧
    (evdi_platform_device_is_free dev_idle pdev_linked).1 = false :=
  ⟨link_refused_when_not_free.1 dev_idle 0 pdev_linked (some 20) rfl,
   link_refused_when_not_free.2.1 dev_idle dev_idle 0 pdev_fresh 10 20 (by decide) rfl,
   link_refused_when_not_free.2.2 dev_busy pdev_fresh (Or.inl ⟨_, rfl, rfl⟩),
   link_refused_when_not_free.2.2 dev_idle pdev_linked (Or.inr rfl)⟩

/-- Claim C5: `evdi_platform_device_unlink_if_linked_with` called with a `NULL` parent,
or with a parent other than the recorded one, issues no call and leaves the device
unchanged; called with the recorded, non-`NULL` parent it calls `sysfs_remove_link` and
resets the state to unattached (`symlinked` false, parent `NULL`, no sysfs link). -/
theorem unlink_noop_unless_parent_matches :
    (∀ (pdev : platform_device) (parent : Option device),
      (parent = none ∨ pdev.drvdata.parent ≠ parent) →
      evdi_platform_device_unlink_if_linked_with pdev parent = (pdev, [])) ∧
    (∀ (pdev : platform_device) (p : device),
      pdev.drvdata.parent = some p →
      (evdi_platform_device_unlink_if_linked_with pdev (some p)).1 =
        { drvdata := { drm_dev := pdev.drvdata.drm_dev, parent := none, symlinked := false },
          device_link := none } ∧
      (evdi_platform_device_unlink_if_linked_with pdev (some p)).2.count
        Call.sysfs_remove_link = 1) := by
  constructor
  · intro pdev parent h
    cases parent with
    | none => rfl
    | some p =>
      have hp : pdev.drvdata.parent ≠ some p := by simpa using h
      simp [evdi_platform_device_unlink_if_linked_with, hp]
  · intro pdev p h
    simp [evdi_platform_device_unlink_if_linked_with, h]

/-- Witness for `unlink_noop_unless_parent_matches`: a device attached to parent 10 is
asked to unlink from `NULL`, from parent 20, and from parent 10. -/
theorem unlink_witness :
    evdi_platform_device_unlink_if_linked_with pdev_linked none = (pdev_linked, []) ∧
    evdi_platform_device_unlink_if_linked_with pdev_linked (some 20) = (pdev_linked, []) ∧
    ((evdi_platform_device_unlink_if_linked_with pdev_linked (some 10)).1 =
        { drvdata := { drm_dev := 1, parent := none, symlinked := false },
          device_link := none } ∧
      (evdi_platform_device_unlink_if_linked_with pdev_linked (some 10)).2.count
        Call.sysfs_remove_link = 1) :=
  ⟨unlink_noop_unless_parent_matches.1 pdev_linked none (Or.inl rfl),
   unlink_noop_unless_parent_matches.1 pdev_linked (some 20) (Or.inr (by decide)),
   unlink_noop_unless_parent_matches.2 pdev_linked 10 rfl⟩

/-- The data installed by a successful probe has no parent and is not symlinked. -/
theorem probe_installs_unattached (kzalloc : Bool) (ddev : evdi_ptr → drm_device)
    (env : create_env) (data : evdi_platform_device_data)
    (hprobe : (evdi_platform_device_probe kzalloc ddev env).2.1 = some data) :
    (evdi_platform_device_probe kzalloc ddev env).1 = 0 ∧
      data.parent = none ∧ data.symlinked = false := by
  unfold evdi_platform_device_probe at hprobe ⊢
  cases kzalloc with
  | false => simp at hprobe
  | true =>
    simp only [Bool.not_true, Bool.false_eq_true, if_false] at hprobe ⊢
    generalize (evdi_drm_device_create env) = created at hprobe ⊢
    obtain ⟨ptr, calls⟩ := created
    cases ptr with
    | error e => simp at hprobe
    | ok evdi =>
      simp only [Option.some.injEq] at hprobe
      subst hprobe
      simp [PTR_ERR_OR_ZERO]

/-- The attachment invariant survives `evdi_platform_device_link`. -/
theorem link_keeps_attach_inv (dev_to_evdi : drm_device → Option evdi_device) (ret : Int)
    (pdev : platform_device) (parent : Option device) (h : attach_inv pdev) :
    attach_inv
      (((evdi_platform_device_link dev_to_evdi ret (some pdev) parent).1).getD pdev) := by
  cases parent with
  | none => simpa [evdi_platform_device_link] using h
  | some p =>
    unfold evdi_platform_device_link
    simp only [is_free_keeps_state]
    split_ifs
    · simpa using h
    · simpa using h
    · simp [attach_inv]

/-- The attachment invariant survives `evdi_platform_device_unlink_if_linked_with`. -/
theorem unlink_keeps_attach_inv (pdev : platform_device) (parent : Option device)
    (h : attach_inv pdev) :
    attach_inv (evdi_platform_device_unlink_if_linked_with pdev parent).1 := by
  cases parent with
  | none => simpa [evdi_platform_device_unlink_if_linked_with] using h
  | some p =>
    unfold evdi_platform_device_unlink_if_linked_with
    dsimp only
    split_ifs
    · simp [attach_inv]
    · exact h

/-- The attachment invariant survives every sequence of attachment requests. -/
theorem run_ops_keeps_attach_inv (ops : List attach_op) :
    ∀ pdev : platform_device, attach_inv pdev → attach_inv (run_ops pdev ops) := by
  induction ops with
  | nil => intro pdev h; exact h
  | cons op rest ih =>
    intro pdev h
    simp only [run_ops, List.foldl_cons]
    apply ih
    cases op with
    | link d ret parent => exact link_keeps_attach_inv d ret pdev parent h
    | unlink parent => exact unlink_keeps_attach_inv pdev parent h

/-- Claim C10: a successful `evdi_platform_device_probe` returns 0 and installs data with
no parent and `symlinked` false; from there, after every finite sequence of link and
unlink requests, with any parents, any painter state and any `sysfs_create_link` results,
`symlinked` is true exactly when a parent is recorded, and the recorded parent is the
target of the sysfs link that exists; so an unlink that calls `sysfs_remove_link` removes
a link that `sysfs_create_link` did create, to that very parent. -/
theorem attach_invariant_after_probe (kzalloc : Bool) (ddev : evdi_ptr → drm_device)
    (env : create_env) (data : evdi_platform_device_data)
    (hprobe : (evdi_platform_device_probe kzalloc ddev env).2.1 = some data)
    (ops : List attach_op) :
    (evdi_platform_device_probe kzalloc ddev env).1 = 0 ∧
    data.parent = none ∧ data.symlinked = false ∧
    ((run_ops { drvdata := data, device_link := none } ops).drvdata.symlinked = true ↔
      (run_ops { drvdata := data, device_link := none } ops).drvdata.parent ≠ none) ∧
    (run_ops { drvdata := data, device_link := none } ops).device_link =
      (run_ops { drvdata := data, device_link := none } ops).drvdata.parent ∧
    (∀ p : device,
      Call.sysfs_remove_link ∈
        (evdi_platform_device_unlink_if_linked_with
          (run_ops { drvdata := data, device_link := none } ops) (some p)).2 →
      (run_ops { drvdata := data, device_link := none } ops).device_link = some p ∧
      (run_ops { drvdata := data, device_link := none } ops).drvdata.symlinked = true) := by
  obtain ⟨hret, hparent, hsym⟩ := probe_installs_unattached kzalloc ddev env data hprobe
  have hinit : attach_inv { drvdata := data, device_link := none } := by
    simp [attach_inv, hparent, hsym]
  have hinv := run_ops_keeps_attach_inv ops _ hinit
  refine ⟨hret, hparent, hsym, hinv.1, hinv.2, ?_⟩
  intro p hp
  generalize run_ops { drvdata := data, device_link := none } ops = final at hinv hp ⊢
  have hpar : final.drvdata.parent = some p := by
    by_contra hne
    simp [evdi_platform_device_unlink_if_linked_with, hne] at hp
  exact ⟨hinv.2.trans hpar, hinv.1.mpr (by simp [hpar])⟩

/-- Witness for `attach_invariant_after_probe`: a probe in which everything succeeds,
followed by the six requests of `ops_sample`. -/
theorem attach_invariant_witness :
    (evdi_platform_device_probe true id env_all_ok).1 = 0 ∧
    ({ drm_dev := 1, parent := none, symlinked := false } :
      evdi_platform_device_data).parent = none ∧
    ({ drm_dev := 1, parent := none, symlinked := false } :
      evdi_platform_device_data).symlinked = false ∧
    ((run_ops { drvdata := { drm_dev := 1, parent := none, symlinked := false },
                device_link := none } ops_sample).drvdata.symlinked = true ↔
      (run_ops { drvdata := { drm_dev := 1, parent := none, symlinked := false },
                 device_link := none } ops_sample).drvdata.parent ≠ none) ∧
    (run_ops { drvdata := { drm_dev := 1, parent := none, symlinked := false },
               device_link := none } ops_sample).device_link =
      (run_ops { drvdata := { drm_dev := 1, parent := none, symlinked := false },
                 device_link := none } ops_sample).drvdata.parent ∧
    (∀ p : device,
      Call.sysfs_remove_link ∈
        (evdi_platform_device_unlink_if_linked_with
          (run_ops { drvdata := { drm_dev := 1, parent := none, symlinked := false },
                     device_link := none } ops_sample) (some p)).2 →
      (run_ops { drvdata := { drm_dev := 1, parent := none, symlinked := false },
                 device_link := none } ops_sample).device_link = some p ∧
      (run_ops { drvdata := { drm_dev := 1, parent := none, symlinked := false },
                 device_link := none } ops_sample).drvdata.symlinked = true) :=
  attach_invariant_after_probe true id env_all_ok
    { drm_dev := 1, parent := none, symlinked := false } rfl ops_sample

end Evdi
